import Mathlib

/-!
Shallow embedding of src/M1/azor-chatdog-js/src/llm/llamaClient.ts.

Conventions:
- JS strings are Lean String; JS array iteration becomes List.foldl / List.map.
- Machine reals appear only as values copied around unchanged; where a claim
  is about which values are forwarded (finite / present), a JS number is
  modelled as JSNumber (a rational payload or one of the non-finite values).
- Promises are modelled by explicit state passing: the static model cache is a
  state record holding an association list from cache key to promise id, a
  store of promise cells, and a log of loader invocations; rejection of an
  awaited promise is modelled by Except.
-/

/-- Role of a message: the source type is the union "user" | "model". -/
inductive Role where
  | user
  | model
deriving DecidableEq

/-- One part of a message: the source shape is an object with a text field. -/
structure MessagePart where
  text : String
deriving DecidableEq

/-- Application-level message: role plus ordered parts (src/types, as used by llamaClient.ts). -/
structure Message where
  role : Role
  parts : List MessagePart
deriving DecidableEq

/-- Native chat-history item of node-llama-cpp as used by the source:
a user item carries one text, a model item carries a response sequence. -/
inductive ChatHistoryItem where
  | user (text : String)
  | model (response : List String)
deriving DecidableEq

/-- Response returned by sendMessage (an object with a text field). -/
structure LLMResponse where
  text : String
deriving DecidableEq

/-- LlamaClient.countHistoryTokens (llamaClient.ts lines 158-166):
for-loops accumulating Math.ceil(part.text.length / 4); on natural-number
lengths, Math.ceil(n / 4) is exactly (n + 3) / 4 in truncating division. -/
def countHistoryTokens (history : List Message) : Nat :=
  history.foldl
    (fun totalTokens msg =>
      msg.parts.foldl (fun t part => t + (part.text.length + 3) / 4) totalTokens)
    0

/-- Body of the loop of LlamaClient.convertToChatHistory (lines 259-273):
translation of a single message. -/
def convertMessage (message : Message) : ChatHistoryItem :=
  let textParts := message.parts.map (fun part => part.text)
  match message.role with
  | Role.user => ChatHistoryItem.user (String.join textParts)
  | Role.model =>
      ChatHistoryItem.model (if textParts.length > 0 then textParts else [""])

/-- LlamaClient.convertToChatHistory (lines 256-276): items pushed in a loop. -/
def convertToChatHistory (history : List Message) : List ChatHistoryItem :=
  history.foldl (fun items message => items ++ [convertMessage message]) []

/-- Internal view of a native LlamaChatSession (type LlamaChatSessionInternal,
lines 30-35): the four underscore-prefixed fields the source touches. The
record-typed state ref is modelled by its key set. -/
structure LlamaChatSessionInternal where
  chatHistory : Option (List ChatHistoryItem)
  chatHistoryStateRef : List String
  lastEvaluation : Option Unit
  canUseContextWindowForCompletion : Option Bool
deriving DecidableEq

/-- LlamaClient.hydrateNativeHistory (lines 235-254). -/
def hydrateNativeHistory (session : LlamaChatSessionInternal) (history : List Message) :
    LlamaChatSessionInternal :=
  let chatHistoryItems := convertToChatHistory history
  if chatHistoryItems.length = 0 then
    session
  else
    let existingHistory := match session.chatHistory with
      | some l => l
      | none => []
    { chatHistory := some (existingHistory ++ chatHistoryItems),
      chatHistoryStateRef := [],
      lastEvaluation := none,
      canUseContextWindowForCompletion := some false }

/-- Spec-side translation, written from section 4.3 of the specification, with
the one amendment forced by the code: a model message with no parts yields the
one-element response sequence containing the empty string. -/
def toNativeHistorySpec (history : List Message) : List ChatHistoryItem :=
  history.map (fun message =>
    match message.role with
    | Role.user =>
        ChatHistoryItem.user (String.join (message.parts.map (fun p => p.text)))
    | Role.model =>
        ChatHistoryItem.model
          (if message.parts = [] then [""] else message.parts.map (fun p => p.text)))

/-- Spec-side token estimate, written from the specification: ceiling of
character length over four, summed over every text part of every message. -/
def estimateHistoryTokensSpec (history : List Message) : Nat :=
  (history.map (fun msg =>
    (msg.parts.map (fun part => ⌈(part.text.length : ℚ) / 4⌉₊)).sum)).sum

/-- Total part-text length of a history, summed over every part of every
message (the quantity the token-estimate claims are phrased in). -/
def totalPartTextLength (history : List Message) : Nat :=
  (history.map (fun m => (m.parts.map (fun p => p.text.length)).sum)).sum

/-- JS number as far as this module observes it: a finite value (kept exact as
a rational, since the source only copies these values, never computes with
them), or one of the non-finite values Number.isFinite rejects. -/
inductive JSNumber where
  | val (q : ℚ)
  | nan
  | posInf
  | negInf
deriving DecidableEq

/-- Number.isFinite on a defined JS number. -/
def JSNumber.isFinite : JSNumber → Bool
  | JSNumber.val _ => true
  | _ => false

/-- Helper isFiniteNumber (lines 318-320): value is defined and finite. -/
def isFiniteNumber : Option JSNumber → Bool
  | none => false
  | some v => v.isFinite

/-- JS truthiness of a possibly-undefined string (an empty string is falsy):
the guard used for the response-prefix field at line 205. -/
def truthyStr : Option String → Bool
  | none => false
  | some s => s ≠ ""

/-- Type LlamaGenerationConfig (lines 20-28): all fields optional. The source
field responsePrefix is called respPfx here. -/
structure LlamaGenerationConfig where
  temperature : Option JSNumber := none
  topP : Option JSNumber := none
  topK : Option JSNumber := none
  minP : Option JSNumber := none
  maxTokens : Option JSNumber := none
  seed : Option JSNumber := none
  respPfx : Option String := none
deriving DecidableEq

/-- Sparse prompt-options record (LLamaChatPromptOptions as populated by
getPromptOptions): a field is absent exactly when it is none. The source
field responsePrefix is called respPfx here. -/
@[ext]
structure LLamaChatPromptOptions where
  temperature : Option JSNumber := none
  topP : Option JSNumber := none
  topK : Option JSNumber := none
  minP : Option JSNumber := none
  maxTokens : Option JSNumber := none
  seed : Option JSNumber := none
  respPfx : Option String := none
deriving DecidableEq

/-- Object.keys(options).length for the sparse record: number of set fields. -/
def LLamaChatPromptOptions.numKeys (o : LLamaChatPromptOptions) : Nat :=
  (if o.temperature.isSome then 1 else 0) +
  (if o.topP.isSome then 1 else 0) +
  (if o.topK.isSome then 1 else 0) +
  (if o.minP.isSome then 1 else 0) +
  (if o.maxTokens.isSome then 1 else 0) +
  (if o.seed.isSome then 1 else 0) +
  (if o.respPfx.isSome then 1 else 0)

/-- State of class LlamaClient (lines 99-120): configuration fields. The
gpuLayers count is a validated non-negative integer. -/
structure LlamaClient where
  modelName : String
  modelPath : String
  gpuLayers : Nat
  contextSize : Nat
  generationConfig : LlamaGenerationConfig
deriving DecidableEq

/-- Field-assignment chain of LlamaClient.getPromptOptions (lines 185-207):
starts from the empty record and conditionally sets each field. -/
def buildOptions (g : LlamaGenerationConfig) : LLamaChatPromptOptions :=
  let o0 : LLamaChatPromptOptions := {}
  let o1 := if isFiniteNumber g.temperature then { o0 with temperature := g.temperature } else o0
  let o2 := if isFiniteNumber g.topP then { o1 with topP := g.topP } else o1
  let o3 := if isFiniteNumber g.topK then { o2 with topK := g.topK } else o2
  let o4 := if isFiniteNumber g.minP then { o3 with minP := g.minP } else o3
  let o5 := if isFiniteNumber g.maxTokens then { o4 with maxTokens := g.maxTokens } else o4
  let o6 := if isFiniteNumber g.seed then { o5 with seed := g.seed } else o5
  let o7 := if truthyStr g.respPfx then { o6 with respPfx := g.respPfx } else o6
  o7

/-- LlamaClient.getPromptOptions (lines 184-210): the populated record, or
undefined (none) when no key was set. -/
def getPromptOptions (c : LlamaClient) : Option LLamaChatPromptOptions :=
  let options := buildOptions c.generationConfig
  if options.numKeys > 0 then some options else none

/-- Spec-side prompt options, written from section 4.2 of the specification:
a record holding exactly the generation-config fields that are present and
numerically finite (for the response prefix: present and non-empty), or unset
(none, not an empty record) when no field applies. -/
def promptOptionsSpec (c : LlamaClient) : Option LLamaChatPromptOptions :=
  let g := c.generationConfig
  let r : LLamaChatPromptOptions :=
    { temperature := if isFiniteNumber g.temperature then g.temperature else none,
      topP := if isFiniteNumber g.topP then g.topP else none,
      topK := if isFiniteNumber g.topK then g.topK else none,
      minP := if isFiniteNumber g.minP then g.minP else none,
      maxTokens := if isFiniteNumber g.maxTokens then g.maxTokens else none,
      seed := if isFiniteNumber g.seed then g.seed else none,
      respPfx := if truthyStr g.respPfx then g.respPfx else none }
  if r = {} then none else some r

/-- State of one cached promise cell. -/
inductive PromiseState where
  | pending
  | resolved (model : Nat)
  | rejected (err : Nat)
deriving DecidableEq

/-- Lookup in the association list modelling the Map (Map.get / Map.has). -/
def mapLookup : List (String × Nat) → String → Option Nat
  | [], _ => none
  | (k2, v) :: rest, k => if k2 = k then some v else mapLookup rest k

/-- Map.delete on the association list. -/
def mapDelete : List (String × Nat) → String → List (String × Nat)
  | [], _ => []
  | (k2, v) :: rest, k =>
      if k2 = k then mapDelete rest k else (k2, v) :: mapDelete rest k

/-- State of the static LlamaClient.modelCache (line 100) together with the
promise store and a log of underlying loader invocations: each invocation of
the loader task (the async IIFE at lines 282-293, which calls getLlama and
then llama.loadModel) appends its cache key to loaderCalls. -/
structure ModelCacheState where
  cache : List (String × Nat)
  promises : List PromiseState
  loaderCalls : List String
deriving DecidableEq

/-- Cache key of line 279: modelPath, a bar, and the gpuLayers count. -/
def cacheKey (c : LlamaClient) : String :=
  c.modelPath ++ "|" ++ toString c.gpuLayers

/-- LlamaClient.loadModel (lines 278-299) as a state transition: if the key is
absent, start the loader (one new pending promise cell, one loader-log entry)
and store it; return the entry under the key. The load itself completes later
(settleLoad). -/
def loadModel (s : ModelCacheState) (c : LlamaClient) : ModelCacheState × Nat :=
  let key := cacheKey c
  match mapLookup s.cache key with
  | some pid => (s, pid)
  | none =>
      let pid := s.promises.length
      ({ cache := (key, pid) :: s.cache,
         promises := s.promises ++ [PromiseState.pending],
         loaderCalls := s.loaderCalls ++ [key] }, pid)

/-- Possible completions of the loader task started at lines 282-293. -/
inductive LoadOutcome where
  | getLlamaFailure (err : Nat)
  | loadModelFailure (err : Nat)
  | success (model : Nat)

/-- Completion of the loader task for promise cell pid under the given key.
The try block is: await getLlama(), then return llama.loadModel(...) WITHOUT
an await. A rejection of await getLlama() is caught, so the catch block runs
(cache.delete(cacheKey), rethrow). The promise returned by llama.loadModel is
returned from the try block un-awaited, so when IT rejects, control never
re-enters the function body and the catch block does not run: the promise
cell is rejected but the cache entry is NOT deleted. -/
def settleLoad (s : ModelCacheState) (key : String) (pid : Nat) :
    LoadOutcome → ModelCacheState
  | LoadOutcome.getLlamaFailure err =>
      { s with
        cache := mapDelete s.cache key,
        promises := s.promises.set pid (PromiseState.rejected err) }
  | LoadOutcome.loadModelFailure err =>
      { s with promises := s.promises.set pid (PromiseState.rejected err) }
  | LoadOutcome.success m =>
      { s with promises := s.promises.set pid (PromiseState.resolved m) }

/-- State of class LlamaChatSessionWrapper (lines 50-94): the private history
and the memoized session promise created once in the constructor. The
materialization outcome (success with a native session, or the rejection of
createNativeSession) is the settled value sendMessage observes on await. -/
structure LlamaChatSessionWrapper where
  history : List Message
  sessionPromise : Except Nat LlamaChatSessionInternal

/-- Constructor of LlamaChatSessionWrapper (lines 55-65): copies the optional
initial history (any array, even empty, is truthy; undefined gives []) and
stores the one createNativeSession operation, whose outcome is the
nativeSessionResult argument. -/
def mkLlamaChatSessionWrapper (initialHistory : Option (List Message))
    (nativeSessionResult : Except Nat LlamaChatSessionInternal) :
    LlamaChatSessionWrapper :=
  { history := match initialHistory with
      | some h => h
      | none => [],
    sessionPromise := nativeSessionResult }

/-- LlamaChatSessionWrapper.sendMessage (lines 71-89). Awaiting the memoized
session promise rethrows its rejection; the native prompt call is the external
collaborator promptFn applied to the text and the client prompt options. On
success the user message and then the model message are pushed; on any
failure the wrapper state is unchanged. The first component is the wrapper
state after the call. -/
def sendMessage (client : LlamaClient) (w : LlamaChatSessionWrapper)
    (text : String)
    (promptFn : String → Option LLamaChatPromptOptions → Except Nat String) :
    LlamaChatSessionWrapper × Except Nat LLMResponse :=
  match w.sessionPromise with
  | Except.error e => (w, Except.error e)
  | Except.ok _s =>
      match promptFn text (getPromptOptions client) with
      | Except.error e => (w, Except.error e)
      | Except.ok responseText =>
          ({ w with
              history := w.history ++
                [{ role := Role.user, parts := [{ text := text }] },
                 { role := Role.model, parts := [{ text := responseText }] }] },
           Except.ok { text := responseText })

/-- Sequential sendMessage calls on one wrapper, threading the state; each
call carries its own text and native prompt behavior. -/
def runSends (client : LlamaClient) (w : LlamaChatSessionWrapper) :
    List (String × (String → Option LLamaChatPromptOptions → Except Nat String)) →
    LlamaChatSessionWrapper
  | [] => w
  | (t, pf) :: rest => runSends client (sendMessage client w t pf).1 rest

lemma convertToChatHistory_go (h : List Message) (acc : List ChatHistoryItem) :
    h.foldl (fun items message => items ++ [convertMessage message]) acc
      = acc ++ h.map convertMessage := by
  induction h generalizing acc with
  | nil => simp
  | cons m rest ih => simp [List.foldl_cons, ih]

lemma convertToChatHistory_eq_map (h : List Message) :
    convertToChatHistory h = h.map convertMessage := by
  simp [convertToChatHistory, convertToChatHistory_go]

lemma countPartsTokens_go (parts : List MessagePart) (acc : Nat) :
    parts.foldl (fun t part => t + (part.text.length + 3) / 4) acc
      = acc + (parts.map (fun part => (part.text.length + 3) / 4)).sum := by
  induction parts generalizing acc with
  | nil => simp
  | cons p rest ih => simp [List.foldl_cons, ih]; omega

lemma countHistoryTokens_go (history : List Message) (acc : Nat) :
    history.foldl
      (fun totalTokens msg =>
        msg.parts.foldl (fun t part => t + (part.text.length + 3) / 4) totalTokens)
      acc
      = acc + (history.map (fun msg =>
          (msg.parts.map (fun part => (part.text.length + 3) / 4)).sum)).sum := by
  induction history generalizing acc with
  | nil => simp
  | cons m rest ih =>
      rw [List.foldl_cons, ih, countPartsTokens_go]
      simp only [List.map_cons, List.sum_cons]
      omega

lemma natCeil_div_four (n : Nat) : ⌈(n : ℚ) / 4⌉₊ = (n + 3) / 4 := by
  have hc : (n : ℚ) / 4 ≤ ((⌈(n : ℚ) / 4⌉₊ : Nat) : ℚ) := Nat.le_ceil _
  have h1 : (n : ℚ) ≤ ((⌈(n : ℚ) / 4⌉₊ : Nat) : ℚ) * 4 := by
    have h4 : (0 : ℚ) < 4 := by norm_num
    calc (n : ℚ) = (n : ℚ) / 4 * 4 := by field_simp
    _ ≤ ((⌈(n : ℚ) / 4⌉₊ : Nat) : ℚ) * 4 := by
        exact mul_le_mul_of_nonneg_right hc (by norm_num)
  have h1n : n ≤ ⌈(n : ℚ) / 4⌉₊ * 4 := by exact_mod_cast h1
  have h2 : (n : ℚ) / 4 ≤ (((n + 3) / 4 : Nat) : ℚ) := by
    rw [div_le_iff₀ (by norm_num : (0 : ℚ) < 4)]
    have hn : n ≤ (n + 3) / 4 * 4 := by omega
    exact_mod_cast hn
  have h3 : ⌈(n : ℚ) / 4⌉₊ ≤ (n + 3) / 4 := Nat.ceil_le.mpr h2
  omega

lemma mapLookup_mapDelete (m : List (String × Nat)) (k : String) :
    mapLookup (mapDelete m k) k = none := by
  induction m with
  | nil => rfl
  | cons e rest ih =>
      by_cases h : e.1 = k
      · simpa [mapDelete, h] using ih
      · simp [mapDelete, mapLookup, h, ih]

lemma numKeys_eq_zero_iff (o : LLamaChatPromptOptions) :
    o.numKeys = 0 ↔ o = {} := by
  obtain ⟨a, b, c, d, e, f, g⟩ := o
  cases a <;> cases b <;> cases c <;> cases d <;> cases e <;> cases f <;> cases g <;>
    simp [LLamaChatPromptOptions.numKeys, LLamaChatPromptOptions.mk.injEq]

lemma buildOptions_temperature (g : LlamaGenerationConfig) :
    (buildOptions g).temperature =
      if isFiniteNumber g.temperature then g.temperature else none := by
  unfold buildOptions
  split_ifs <;> rfl

lemma buildOptions_topP (g : LlamaGenerationConfig) :
    (buildOptions g).topP = if isFiniteNumber g.topP then g.topP else none := by
  unfold buildOptions
  split_ifs <;> rfl

lemma buildOptions_topK (g : LlamaGenerationConfig) :
    (buildOptions g).topK = if isFiniteNumber g.topK then g.topK else none := by
  unfold buildOptions
  split_ifs <;> rfl

lemma buildOptions_minP (g : LlamaGenerationConfig) :
    (buildOptions g).minP = if isFiniteNumber g.minP then g.minP else none := by
  unfold buildOptions
  split_ifs <;> rfl

lemma buildOptions_maxTokens (g : LlamaGenerationConfig) :
    (buildOptions g).maxTokens =
      if isFiniteNumber g.maxTokens then g.maxTokens else none := by
  unfold buildOptions
  split_ifs <;> rfl

lemma buildOptions_seed (g : LlamaGenerationConfig) :
    (buildOptions g).seed = if isFiniteNumber g.seed then g.seed else none := by
  unfold buildOptions
  split_ifs <;> rfl

lemma buildOptions_respPfx (g : LlamaGenerationConfig) :
    (buildOptions g).respPfx = if truthyStr g.respPfx then g.respPfx else none := by
  unfold buildOptions
  split_ifs <;> rfl

/-- Concrete client used to instantiate the universally quantified theorems. -/
def demoClient : LlamaClient :=
  { modelName := "m",
    modelPath := "path",
    gpuLayers := 0,
    contextSize := 512,
    generationConfig := {} }

/-- Empty initial model-cache state. -/
def demoState : ModelCacheState :=
  { cache := [], promises := [], loaderCalls := [] }

/-- Concrete native-session state holding one pre-existing item. -/
def demoSession : LlamaChatSessionInternal :=
  { chatHistory := some [ChatHistoryItem.user "sys"],
    chatHistoryStateRef := ["k"],
    lastEvaluation := some (),
    canUseContextWindowForCompletion := some true }

/-- Concrete one-message history. -/
def demoHistory : List Message :=
  [{ role := Role.user, parts := [{ text := "hi" }] }]

/-- History with two parts of lengths 1 and 39: total part-text length 40. -/
def c8History : List Message :=
  [{ role := Role.user,
     parts := [{ text := "a" },
               { text := "bbbbbbbbbbbbbbbbbbbbbbbbbbbbbbbbbbbbbbb" }] }]

/-- String of 40 characters. -/
def s40 : String := "cccccccccccccccccccccccccccccccccccccccc"

/-- String of 41 characters. -/
def s41 : String := "ddddddddddddddddddddddddddddddddddddddddd"

/-- C9: for every history, the token estimate is the sum over every text part
of every message of the ceiling of the part's character length divided by 4. -/
theorem countHistoryTokens_eq_estimateSpec (history : List Message) :
    countHistoryTokens history = estimateHistoryTokensSpec history := by
  rw [countHistoryTokens, countHistoryTokens_go]
  simp [estimateHistoryTokensSpec, natCeil_div_four]

/-- C8 counterexample: a history with total part-text length 40 (split into
parts of lengths 1 and 39) on which countHistoryTokens returns 11, not 10:
the function sums per-part ceilings, not the ceiling of the total. -/
theorem countHistoryTokens_total40_counterexample :
    totalPartTextLength c8History = 40
      ∧ countHistoryTokens c8History = 11
      ∧ countHistoryTokens c8History ≠ 10 := by
  refine ⟨rfl, rfl, by decide⟩

/-- C8 amended: for every history consisting of a single message with a
single text part, length 40 gives 10 tokens and length 41 gives 11. -/
theorem countHistoryTokens_single_part (role : Role) (t : String) :
    (t.length = 40 →
        countHistoryTokens [{ role := role, parts := [{ text := t }] }] = 10)
  ∧ (t.length = 41 →
        countHistoryTokens [{ role := role, parts := [{ text := t }] }] = 11) := by
  have h : countHistoryTokens [{ role := role, parts := [{ text := t }] }]
      = (t.length + 3) / 4 := by
    simp [countHistoryTokens]
  constructor <;> intro hl <;> rw [h, hl]

/-- Witness for the amended C8 theorem at concrete 40- and 41-character
strings. -/
theorem countHistoryTokens_single_part_witness :
    countHistoryTokens [{ role := Role.user, parts := [{ text := s40 }] }] = 10
  ∧ countHistoryTokens [{ role := Role.user, parts := [{ text := s41 }] }] = 11 :=
  ⟨(countHistoryTokens_single_part Role.user s40).1 (by rfl),
   (countHistoryTokens_single_part Role.user s41).2 (by rfl)⟩

/-- C4 counterexample: on a model message with an empty part list the
translation emits the one-element response sequence containing the empty
string, not the (empty) sequence of the message's part texts. -/
theorem convertToChatHistory_model_empty_counterexample :
    convertToChatHistory [{ role := Role.model, parts := [] }]
        ≠ [ChatHistoryItem.model ([] : List String)]
  ∧ convertToChatHistory [{ role := Role.model, parts := [] }]
        = [ChatHistoryItem.model [""]] := by
  refine ⟨by decide, rfl⟩

/-- C4 amended: history translation equals the spec-side pure map (one item
per message, in order; user parts concatenated with no separator; model parts
kept as a sequence), amended only in that a model message with no parts
yields the response sequence containing exactly the empty string. -/
theorem convertToChatHistory_matches_spec (history : List Message) :
    convertToChatHistory history = toNativeHistorySpec history := by
  rw [convertToChatHistory_eq_map, toNativeHistorySpec]
  apply List.map_congr_left
  intro m _
  cases hr : m.role <;> cases hp : m.parts <;>
    simp [convertMessage, hr, hp]

/-- C10: wherever a model-role message with an empty part list occurs in the
input, the translation emits a native model item whose response is the
one-element sequence containing the empty string. -/
theorem convertToChatHistory_model_empty_parts (pre post : List Message) :
    convertToChatHistory (pre ++ { role := Role.model, parts := [] } :: post)
      = convertToChatHistory pre
          ++ ChatHistoryItem.model [""] :: convertToChatHistory post := by
  simp [convertToChatHistory_eq_map, convertMessage]

/-- C5: hydration appends the translated items after the existing native
items (all preserved, in order) exactly when the translation is non-empty,
and then clears the cached evaluation state, the state ref, and the
context-window-reuse flag; an empty translation leaves the session untouched. -/
theorem hydrateNativeHistory_frame (session : LlamaChatSessionInternal)
    (history : List Message) :
    (convertToChatHistory history = [] →
        hydrateNativeHistory session history = session)
  ∧ (convertToChatHistory history ≠ [] →
        (hydrateNativeHistory session history).chatHistory
            = some (session.chatHistory.getD [] ++ convertToChatHistory history)
      ∧ (hydrateNativeHistory session history).chatHistoryStateRef = []
      ∧ (hydrateNativeHistory session history).lastEvaluation = none
      ∧ (hydrateNativeHistory session history).canUseContextWindowForCompletion
            = some false) := by
  constructor
  · intro h
    simp [hydrateNativeHistory, h]
  · intro h
    have hlen : ¬(convertToChatHistory history).length = 0 := by simpa using h
    obtain ⟨ch, sr, le, cw⟩ := session
    cases ch <;> simp [hydrateNativeHistory, hlen]

/-- Witness for the hydration theorem: a session with one pre-existing item,
hydrated with an empty and with a one-message history. -/
theorem hydrateNativeHistory_frame_witness :
    hydrateNativeHistory demoSession [] = demoSession
  ∧ (hydrateNativeHistory demoSession demoHistory).chatHistory
      = some (demoSession.chatHistory.getD [] ++ convertToChatHistory demoHistory)
  ∧ (hydrateNativeHistory demoSession demoHistory).chatHistoryStateRef = []
  ∧ (hydrateNativeHistory demoSession demoHistory).lastEvaluation = none
  ∧ (hydrateNativeHistory demoSession demoHistory).canUseContextWindowForCompletion
      = some false :=
  ⟨(hydrateNativeHistory_frame demoSession []).1 rfl,
   (hydrateNativeHistory_frame demoSession demoHistory).2 (by decide)⟩

/-- C3: a successful sendMessage appends exactly the user message carrying
the input and then the model message carrying the returned text, and returns
that text; a failed native prompt call (and likewise a failed
materialization) leaves the wrapper, hence its history, exactly as it was. -/
theorem sendMessage_history_turns (client : LlamaClient)
    (w : LlamaChatSessionWrapper) (text : String)
    (promptFn : String → Option LLamaChatPromptOptions → Except Nat String) :
    (∀ s responseText, w.sessionPromise = Except.ok s →
        promptFn text (getPromptOptions client) = Except.ok responseText →
        sendMessage client w text promptFn =
          ({ w with history := w.history ++
              [{ role := Role.user, parts := [{ text := text }] },
               { role := Role.model, parts := [{ text := responseText }] }] },
           Except.ok { text := responseText }))
  ∧ (∀ e, promptFn text (getPromptOptions client) = Except.error e →
        (sendMessage client w text promptFn).1 = w) := by
  constructor
  · intro s responseText hs hp
    simp [sendMessage, hs, hp]
  · intro e hp
    cases hw : w.sessionPromise <;> simp [sendMessage, hw, hp]

/-- Wrapper whose materialization succeeded, with empty history. -/
def wOk : LlamaChatSessionWrapper :=
  { history := [], sessionPromise := Except.ok demoSession }

/-- Wrapper whose materialization failed with error 5. -/
def wErr : LlamaChatSessionWrapper :=
  { history := [], sessionPromise := Except.error 5 }

/-- Native prompt behavior that always succeeds with the text ok. -/
def pfOk : String → Option LLamaChatPromptOptions → Except Nat String :=
  fun _ _ => Except.ok "ok"

/-- Native prompt behavior that always fails with error 3. -/
def pfErr : String → Option LLamaChatPromptOptions → Except Nat String :=
  fun _ _ => Except.error 3

/-- Witness for the sendMessage theorem: one successful and one failed turn
on a concrete wrapper. -/
theorem sendMessage_history_turns_witness :
    sendMessage demoClient wOk "hi" pfOk =
      ({ wOk with history := wOk.history ++
          [{ role := Role.user, parts := [{ text := "hi" }] },
           { role := Role.model, parts := [{ text := "ok" }] }] },
       Except.ok { text := "ok" })
  ∧ (sendMessage demoClient wOk "hi" pfErr).1 = wOk :=
  ⟨(sendMessage_history_turns demoClient wOk "hi" pfOk).1 demoSession "ok" rfl rfl,
   (sendMessage_history_turns demoClient wOk "hi" pfErr).2 3 rfl⟩

/-- C6: the constructor stores the single materialization outcome; sendMessage
never changes the stored operation (it is never re-created); and when the
materialization failed, every later sendMessage, after any sequence of
earlier calls, fails with that same error and leaves the wrapper unchanged. -/
theorem sessionPromise_failure_terminal (client : LlamaClient) :
    (∀ ih nr, (mkLlamaChatSessionWrapper ih nr).sessionPromise = nr)
  ∧ (∀ w t pf, ((sendMessage client w t pf).1).sessionPromise = w.sessionPromise)
  ∧ (∀ w e, w.sessionPromise = Except.error e →
      ∀ calls, runSends client w calls = w
        ∧ ∀ t pf, sendMessage client (runSends client w calls) t pf
            = (runSends client w calls, Except.error e)) := by
  have herr : ∀ w2 e, w2.sessionPromise = Except.error e →
      ∀ t pf, sendMessage client w2 t pf = (w2, Except.error e) := by
    intro w2 e h2 t pf
    simp [sendMessage, h2]
  refine ⟨fun ih nr => rfl, ?_, ?_⟩
  · intro w t pf
    cases hw : w.sessionPromise with
    | error e => simp [sendMessage, hw]
    | ok s =>
        cases hp : pf t (getPromptOptions client) <;> simp [sendMessage, hw, hp]
  · intro w e hw calls
    have hrun : runSends client w calls = w := by
      induction calls with
      | nil => rfl
      | cons cll rest ih2 =>
          obtain ⟨t, pf⟩ := cll
          simp only [runSends]
          rw [show (sendMessage client w t pf).1 = w from by rw [herr w e hw t pf]]
          exact ih2
    exact ⟨hrun, fun t pf => by rw [hrun]; exact herr w e hw t pf⟩

/-- Witness for the terminal-failure theorem on a wrapper whose
materialization failed with error 5. -/
theorem sessionPromise_failure_terminal_witness :
    (mkLlamaChatSessionWrapper none (Except.error 5)).sessionPromise
        = Except.error 5
  ∧ ((sendMessage demoClient wErr "hi" pfOk).1).sessionPromise
        = wErr.sessionPromise
  ∧ runSends demoClient wErr [("hi", pfOk)] = wErr
  ∧ sendMessage demoClient (runSends demoClient wErr [("hi", pfOk)]) "x" pfOk
        = (runSends demoClient wErr [("hi", pfOk)], Except.error 5) :=
  ⟨(sessionPromise_failure_terminal demoClient).1 none (Except.error 5),
   (sessionPromise_failure_terminal demoClient).2.1 wErr "hi" pfOk,
   ((sessionPromise_failure_terminal demoClient).2.2 wErr 5 rfl [("hi", pfOk)]).1,
   ((sessionPromise_failure_terminal demoClient).2.2 wErr 5 rfl [("hi", pfOk)]).2 "x" pfOk⟩

/-- C1: when the fingerprint key is absent, loadModel invokes the loader
exactly once (one new log entry), stores a pending promise cell under the key
and returns it; when the key is present, loadModel returns the stored cell id
with the state unchanged and no loader invocation, so every caller while the
entry is present observes the same cell, hence the same eventual outcome. -/
theorem loadModel_single_load (s : ModelCacheState) (c : LlamaClient) :
    (mapLookup s.cache (cacheKey c) = none →
        (loadModel s c).1.loaderCalls = s.loaderCalls ++ [cacheKey c]
      ∧ mapLookup (loadModel s c).1.cache (cacheKey c) = some (loadModel s c).2
      ∧ (loadModel s c).1.promises[(loadModel s c).2]?
            = some PromiseState.pending)
  ∧ (∀ pid, mapLookup s.cache (cacheKey c) = some pid →
        loadModel s c = (s, pid)) := by
  constructor
  · intro h
    refine ⟨by simp [loadModel, h], by simp [loadModel, h, mapLookup], ?_⟩
    simp only [loadModel, h]
    exact List.getElem?_concat_length s.promises PromiseState.pending
  · intro pid h
    simp [loadModel, h]

/-- Witness for the single-load theorem: a first and a second acquisition for
the same fingerprint starting from the empty cache. -/
theorem loadModel_single_load_witness :
    ((loadModel demoState demoClient).1.loaderCalls
        = demoState.loaderCalls ++ [cacheKey demoClient]
      ∧ mapLookup (loadModel demoState demoClient).1.cache (cacheKey demoClient)
        = some (loadModel demoState demoClient).2
      ∧ (loadModel demoState demoClient).1.promises[(loadModel
          demoState demoClient).2]? = some PromiseState.pending)
  ∧ loadModel (loadModel demoState demoClient).1 demoClient
      = ((loadModel demoState demoClient).1, (loadModel demoState demoClient).2) := by
  have h1 := (loadModel_single_load demoState demoClient).1 rfl
  exact ⟨h1, (loadModel_single_load (loadModel demoState demoClient).1
    demoClient).2 (loadModel demoState demoClient).2 h1.2.1⟩

/-- State after a first acquisition whose underlying llama.loadModel promise
then rejects: the promise returned from the try block is not awaited, so its
rejection bypasses the catch block and the eviction it would perform. -/
def c2State : ModelCacheState :=
  settleLoad (loadModel demoState demoClient).1 (cacheKey demoClient) 0
    (LoadOutcome.loadModelFailure 7)

/-- C2 (code bug): after a load failure in the llama.loadModel stage, the
cache still maps the fingerprint to the now-rejected promise cell, and a
subsequent acquisition returns that same rejected cell with no fresh loader
invocation, contradicting the claimed eviction-then-retry behavior. The
rejection itself does reach the waiters (the cell is rejected with the
error): only the eviction is missing. -/
theorem loadModelFailure_entry_not_evicted :
    c2State.cache = (loadModel demoState demoClient).1.cache
  ∧ mapLookup c2State.cache (cacheKey demoClient) = some 0
  ∧ c2State.promises[0]? = some (PromiseState.rejected 7)
  ∧ loadModel c2State demoClient = (c2State, 0) := by
  refine ⟨rfl, by decide, by decide, by decide⟩

/-- Client with every generation-config field unset. -/
def allUnsetClient : LlamaClient :=
  { modelName := "m",
    modelPath := "p",
    gpuLayers := 0,
    contextSize := 1,
    generationConfig := {} }

/-- Client whose generation config sets only temperature, to 0.7. -/
def tempOnlyClient : LlamaClient :=
  { allUnsetClient with
    generationConfig := { temperature := some (JSNumber.val (7 / 10)) } }

/-- C7: getPromptOptions agrees with the spec-side description on every
client: the record holds exactly the set-and-finite numeric fields (and a
truthy response prefix), and is undefined rather than empty when nothing
applies; with everything unset it is undefined, and with only temperature 0.7
set it is exactly the one-field record. -/
theorem getPromptOptions_matches_spec (c : LlamaClient) :
    getPromptOptions c = promptOptionsSpec c
  ∧ getPromptOptions allUnsetClient = none
  ∧ getPromptOptions tempOnlyClient
      = some { temperature := some (JSNumber.val (7 / 10)) } := by
  have key : ∀ r : LLamaChatPromptOptions,
      (if r.numKeys > 0 then some r else none)
        = (if r = {} then none else some r) := by
    intro r
    by_cases hz : r = {}
    · have h0 : r.numKeys = 0 := (numKeys_eq_zero_iff r).mpr hz
      rw [if_pos hz, if_neg (by omega : ¬r.numKeys > 0)]
    · have h0 : r.numKeys ≠ 0 := fun h => hz ((numKeys_eq_zero_iff r).mp h)
      rw [if_neg hz, if_pos (Nat.pos_of_ne_zero h0)]
  have hb : buildOptions c.generationConfig =
      { temperature := if isFiniteNumber c.generationConfig.temperature
          then c.generationConfig.temperature else none,
        topP := if isFiniteNumber c.generationConfig.topP
          then c.generationConfig.topP else none,
        topK := if isFiniteNumber c.generationConfig.topK
          then c.generationConfig.topK else none,
        minP := if isFiniteNumber c.generationConfig.minP
          then c.generationConfig.minP else none,
        maxTokens := if isFiniteNumber c.generationConfig.maxTokens
          then c.generationConfig.maxTokens else none,
        seed := if isFiniteNumber c.generationConfig.seed
          then c.generationConfig.seed else none,
        respPfx := if truthyStr c.generationConfig.respPfx
          then c.generationConfig.respPfx else none } :=
    LLamaChatPromptOptions.ext (buildOptions_temperature _) (buildOptions_topP _)
      (buildOptions_topK _) (buildOptions_minP _) (buildOptions_maxTokens _)
      (buildOptions_seed _) (buildOptions_respPfx _)
  refine ⟨?_, rfl, rfl⟩
  simp only [getPromptOptions, promptOptionsSpec]
  rw [hb]
  exact key _

